import Mathlib

/-!
Verification development for the Omada controller API helper
(`omada-api-helper.js`).

The JavaScript source is shallowly embedded: JSON values become the
inductive `Json`; the mutable module-level `state` object becomes the
structure `State`, threaded explicitly; the HTTP transport becomes an
environment `Env : HttpRequest → Except String Resp` (the `Except.error`
case is the `'error'` event of the underlying request, i.e. a transport
failure); `JSON.parse` of a response body either succeeding or throwing is
represented by the environment delivering the body already as
`Json ⊕ String` (parsed envelope or raw text).  `console.log` and
`console.error` calls have no control-flow effect and are not modelled,
except where a log line can itself throw (noted at `login`).  Each
operation returns the list of dispatched requests (its trace), the state
after the call, and its outcome.
-/

/-- JavaScript/JSON values as produced by `JSON.parse`.  Numbers are
modelled as integers (every numeric literal in the source and in its wire
protocol is integral); object field lists carry unique keys, as
`JSON.parse` keeps only the last duplicate while constructing the object. -/
inductive Json where
  | null
  | bool (b : Bool)
  | num (n : Int)
  | str (s : String)
  | arr (elems : List Json)
  | obj (fields : List (String × Json))
deriving Repr

/-- Character-level splitting, the semantics of JavaScript
`String.prototype.split` with a one-character separator (structural over
the character list, so that it computes under `decide`). -/
def jsSplitAux (sep : Char) : List Char → List Char → List String
  | [], acc => [String.mk acc.reverse]
  | ch :: rest, acc =>
    if ch = sep then String.mk acc.reverse :: jsSplitAux sep rest []
    else jsSplitAux sep rest (ch :: acc)

/-- JavaScript `s.split(sep)` for a single-character separator; always a
non-empty list (`"".split(x)` is `[""]`). -/
def jsSplit (s : String) (sep : Char) : List String :=
  jsSplitAux sep s.toList []

/-- JavaScript `s.startsWith(p)`. -/
def jsStartsWith (s p : String) : Bool :=
  p.toList.isPrefixOf s.toList

/-- JavaScript `parts.join(sep)`. -/
def jsJoin (sep : String) : List String → String
  | [] => ""
  | [x] => x
  | x :: xs => x ++ sep ++ jsJoin sep xs

/-- Property read `j[k]`, as used under optional chaining: reading a field
of a non-object value (including `null` under `?.`) yields `undefined`,
rendered as `none`. -/
def Json.get (j : Json) (k : String) : Option Json :=
  match j with
  | .obj fields => (fields.find? (fun kv => kv.1 == k)).map (fun kv => kv.2)
  | _ => none

/-- Index read `j[i]`: array element, single-character string, or the
string-keyed field of a plain object (JS coerces the numeric key). -/
def Json.index (j : Json) (i : Nat) : Option Json :=
  match j with
  | .arr xs => xs.get? i
  | .str s => (s.toList.get? i).map (fun ch => Json.str (String.singleton ch))
  | .obj fields => (fields.find? (fun kv => kv.1 == toString i)).map (fun kv => kv.2)
  | _ => none

/-- JavaScript truthiness of a value. -/
def Json.truthy : Json → Bool
  | .null => false
  | .bool b => b
  | .num n => n != 0
  | .str s => s != ""
  | .arr _ => true
  | .obj _ => true

/-- Truthiness of a possibly-`undefined` value (`undefined` is falsy). -/
def jsTruthyO : Option Json → Bool
  | none => false
  | some j => j.truthy

/-- Strict equality `x === 0`: true only for the number `0`. -/
def strictEqZero : Option Json → Bool
  | some (.num 0) => true
  | _ => false

/-- The `.length` property: array length, string length, or an ordinary
`length` field of a plain object; `undefined` otherwise. -/
def jsLength : Json → Option Json
  | .arr xs => some (.num xs.length)
  | .str s => some (.num s.length)
  | .obj fields => (fields.find? (fun kv => kv.1 == "length")).map (fun kv => kv.2)
  | _ => none

/-- The comparison `x > 0` on a possibly-`undefined` value.  `undefined`,
`null` and non-numeric strings compare false; JavaScript's numeric
coercion of arrays/objects and of padded numeric strings is not modelled
(no caller below reaches those cases). -/
def jsGtZero : Option Json → Bool
  | some (.num n) => decide (0 < n)
  | some (.bool b) => b
  | some (.str s) =>
    match s.toInt? with
    | some n => decide (0 < n)
    | none => false
  | _ => false

mutual

/-- Template-literal interpolation of a value (`${x}`).  Array rendering
follows `Array.prototype.toString` (elements joined by `","`, `null`
rendered empty); objects render as `"[object Object]"`. -/
def Json.jsToString : Json → String
  | .null => "null"
  | .bool b => cond b "true" "false"
  | .num n => toString n
  | .str s => s
  | .arr xs => jsJoin "," (Json.jsToStringElems xs)
  | .obj _ => "[object Object]"

/-- Rendering of array elements for `Json.jsToString` (`null` and only
`null` renders as the empty string inside an array). -/
def Json.jsToStringElems : List Json → List String
  | [] => []
  | Json.null :: js => "" :: Json.jsToStringElems js
  | j :: js => j.jsToString :: Json.jsToStringElems js

end

/-- Template-literal interpolation of a session field.  The fields start
out as `null`, which interpolates as `"null"`.  (The model represents both
JS `null` and `undefined` by `none`; no scenario below interpolates a
field holding `undefined`.) -/
def jsShow : Option Json → String
  | none => "null"
  | some j => j.jsToString

/-- Optional-chained read on a response body: `res.data?.k`.  A body that
was raw text (not JSON) is a string, whose `result`/`errorCode` reads give
`undefined`. -/
def dataGet (d : Json ⊕ String) (k : String) : Option Json :=
  match d with
  | .inl j => j.get k
  | .inr _ => none

/-- The `CONFIG` object (its values come from environment variables, so it
is a parameter of the model; the source default for `rejectUnauthorized`
is `false`). -/
structure Config where
  baseUrl : String
  username : String
  password : String
  rejectUnauthorized : Bool

/-- The module-level mutable `state` object. -/
structure State where
  controllerId : Option Json
  token : Option Json
  cookies : List String
  siteId : Option Json
deriving Repr

/-- Initial value of `state` (all session fields `null`, empty cookie
list). -/
def initialState : State :=
  { controllerId := none, token := none, cookies := [], siteId := none }

/-- The part of a `set-cookie` header value before the first `;`
(`c.split(';')[0]`). -/
def cookiePart (c : String) : String := (jsSplit c ';').headD ""

/-- The name of a cookie part: the text before the first `=`
(`cookiePart.split('=')[0]`). -/
def cookieNameOf (p : String) : String := (jsSplit p '=').headD ""

/-- One iteration of the response cookie loop: drop every stored entry
that starts with `name + "="`, then push the incoming cookie part. -/
def mergeCookie (cookies : List String) (c : String) : List String :=
  let part := cookiePart c
  let name := cookieNameOf part
  (cookies.filter (fun existing => !(jsStartsWith existing (name ++ "=")))) ++ [part]

/-- Fold of `mergeCookie` over all `set-cookie` directives of a response
(`setCookies.forEach(...)`; an absent header is the empty list). -/
def mergeCookies (cookies : List String) (setCookies : List String) : List String :=
  setCookies.foldl mergeCookie cookies

/-- The request as handed to the HTTP library: the `options` object
(method, URL, the misspelled `rejectAuthorized` key, the headers assembled
from the session state) plus the serialized body.  URL parsing into
hostname/port/path and the derived `Content-Length` header are not
modelled beyond the URL string itself. -/
structure HttpRequest where
  method : String
  url : String
  rejectAuthorized : Bool
  contentType : String
  csrfToken : Option Json
  cookieHeader : Option String
  body : Option Json
deriving Repr

/-- A transport-level response: HTTP status, the `set-cookie` headers, and
the body after the `JSON.parse` try/catch (parsed JSON or raw text). -/
structure Resp where
  status : Nat
  setCookies : List String
  data : Json ⊕ String

/-- The remote controller plus network, as seen through one dispatch:
either a response or a transport failure (the request's `'error'`
event). -/
abbrev Env : Type := HttpRequest → Except String Resp

/-- Whether the URL is `https:` (`parsed.protocol === 'https:'`; URL
parsing itself is not modelled beyond reading the scheme). -/
def isHttps (url : String) : Bool := jsStartsWith url "https:"

/-- Assembly of the `options` object and headers (lines 66-90 of the
source): a `Csrf-Token` header when `state.token` is truthy, a `Cookie`
header joining the stored cookies when any exist. -/
def buildRequest (cfg : Config) (st : State) (method url : String) (body : Option Json) :
    HttpRequest :=
  { method := method
    url := url
    rejectAuthorized := cfg.rejectUnauthorized
    contentType := "application/json"
    csrfToken := if jsTruthyO st.token then st.token else none
    cookieHeader :=
      if st.cookies.length > 0 then some (jsJoin "; " st.cookies) else none
    body := body }

/-- Record of one dispatch: the request sent, and whether this call set
the process-wide `NODE_TLS_REJECT_UNAUTHORIZED` variable to `"0"` (the
source does so for every https URL, lines 121-124). -/
structure DispatchEffect where
  req : HttpRequest
  tlsEnvSetToZero : Bool
deriving Repr

/-- The `request` helper: build the request from the current state,
dispatch it, and on a response merge its cookies into the store before
resolving.  A transport failure rejects and leaves the store untouched. -/
def request (cfg : Config) (env : Env) (st : State) (method url : String)
    (body : Option Json) : DispatchEffect × State × Except String Resp :=
  match env (buildRequest cfg st method url body) with
  | .error e => (⟨buildRequest cfg st method url body, isHttps url⟩, st, .error e)
  | .ok r =>
    (⟨buildRequest cfg st method url body, isHttps url⟩,
      { st with cookies := mergeCookies st.cookies r.setCookies }, .ok r)

/-- Errors escaping the handshake functions.  Each `throw new Error(...)`
site of the source becomes one constructor carrying the response body that
the thrown message stringifies; `transport` is a rejected dispatch;
`jsTypeError` is an uncaught TypeError (property access on
`null`/`undefined`, or a string method called on a non-string). -/
inductive OmadaError where
  | transport (e : String)
  | controllerIdNotFound (d : Json ⊕ String)
  | loginFailed (d : Json ⊕ String)
  | noSites (d : Json ⊕ String)
  | jsTypeError
deriving Repr

/-- URL of step 1 (`/api/info`). -/
def infoUrl (cfg : Config) : String := cfg.baseUrl ++ "/api/info"

/-- Step 1, `getControllerId`: fetch `/api/info` and store
`res.data?.result?.omadacId` when truthy, else throw. -/
def getControllerId (cfg : Config) (env : Env) (st : State) :
    List DispatchEffect × State × Option OmadaError :=
  match request cfg env st "GET" (infoUrl cfg) none with
  | (eff, st', .error e) => ([eff], st', some (.transport e))
  | (eff, st', .ok resp) =>
    let omadacId := (dataGet resp.data "result").bind (fun j => j.get "omadacId")
    if jsTruthyO omadacId then
      ([eff], { st' with controllerId := omadacId }, none)
    else
      ([eff], st', some (.controllerIdNotFound resp.data))

/-- URL of step 2, built from the state at call time. -/
def loginUrl (cfg : Config) (st : State) : String :=
  cfg.baseUrl ++ "/" ++ jsShow st.controllerId ++ "/api/v2/login"

/-- Body of the login POST. -/
def loginBody (cfg : Config) : Json :=
  .obj [("username", .str cfg.username), ("password", .str cfg.password)]

/-- The login success test:
`res.data?.errorCode === 0 && res.data?.result?.token`. -/
def loginGuard (d : Json ⊕ String) : Bool :=
  strictEqZero (dataGet d "errorCode") &&
    jsTruthyO ((dataGet d "result").bind (fun j => j.get "token"))

/-- Step 2, `login`: POST the credentials; on the success test store the
token, else throw `Login failed`.  After storing, the source logs
`state.token.substring(0, 8)`, which itself throws a TypeError when the
stored token is a truthy non-string. -/
def login (cfg : Config) (env : Env) (st : State) :
    List DispatchEffect × State × Option OmadaError :=
  match request cfg env st "POST" (loginUrl cfg st) (some (loginBody cfg)) with
  | (eff, st', .error e) => ([eff], st', some (.transport e))
  | (eff, st', .ok resp) =>
    if loginGuard resp.data then
      match (dataGet resp.data "result").bind (fun j => j.get "token") with
      | some (Json.str t) => ([eff], { st' with token := some (Json.str t) }, none)
      | tok => ([eff], { st' with token := tok }, some .jsTypeError)
    else
      ([eff], st', some (.loginFailed resp.data))

/-- URL of step 3, built from the state at call time. -/
def sitesUrl (cfg : Config) (st : State) : String :=
  cfg.baseUrl ++ "/" ++ jsShow st.controllerId ++ "/api/v2/sites?token=" ++
    jsShow st.token ++ "&currentPage=1&currentPageSize=100"

/-- Step 3, `getSiteId`: list sites; when
`res.data?.result?.data?.length > 0` store `res.data.result.data[0].id`
(reading `.id` of a `null` or `undefined` first element throws), else
throw `No sites found`. -/
def getSiteId (cfg : Config) (env : Env) (st : State) :
    List DispatchEffect × State × Option OmadaError :=
  match request cfg env st "GET" (sitesUrl cfg st) none with
  | (eff, st', .error e) => ([eff], st', some (.transport e))
  | (eff, st', .ok resp) =>
    let dlist := (dataGet resp.data "result").bind (fun j => j.get "data")
    if jsGtZero (dlist.bind jsLength) then
      match dlist.bind (fun j => j.index 0) with
      | some Json.null => ([eff], st', some .jsTypeError)
      | none => ([eff], st', some .jsTypeError)
      | some elem => ([eff], { st' with siteId := elem.get "id" }, none)
    else
      ([eff], st', some (.noSites resp.data))

/-- The `connect` sequence: the three steps in order, each aborting the
rest on error. -/
def connect (cfg : Config) (env : Env) (st : State) :
    List DispatchEffect × State × Option OmadaError :=
  match getControllerId cfg env st with
  | (t1, st1, some e) => (t1, st1, some e)
  | (t1, st1, none) =>
    match login cfg env st1 with
    | (t2, st2, some e) => (t1 ++ t2, st2, some e)
    | (t2, st2, none) =>
      match getSiteId cfg env st2 with
      | (t3, st3, r3) => (t1 ++ t2 ++ t3, st3, r3)

/-- URL built by `apiCall` (line 212-213): base, controller id, fixed
sites prefix, site id, caller path, then the token joined with `&` when
the path already carries a query string and `?` otherwise. -/
def apiUrl (cfg : Config) (st : State) (path : String) : String :=
  let separator := if path.toList.contains '?' then "&" else "?"
  cfg.baseUrl ++ "/" ++ jsShow st.controllerId ++ "/api/v2/sites/" ++
    jsShow st.siteId ++ path ++ separator ++ "token=" ++ jsShow st.token

/-- The generic authenticated call: dispatch once and hand back
`res.data` unchanged.  A nonzero embedded `errorCode` only triggers a
`console.error` log in the source; it is returned as data, and only a
transport failure propagates as an error. -/
def apiCall (cfg : Config) (env : Env) (st : State) (method path : String)
    (body : Option Json) : List DispatchEffect × State × Except String (Json ⊕ String) :=
  match request cfg env st method (apiUrl cfg st path) body with
  | (eff, st', .error e) => ([eff], st', .error e)
  | (eff, st', .ok resp) => ([eff], st', .ok resp.data)

/-- The keys the source writes into the `options` object handed to the
HTTP library (lines 66-75), spelled as in the source. -/
def optionKeysSet : List String :=
  ["hostname", "port", "path", "method", "rejectAuthorized", "headers"]

/-- Modelled from the Node.js documentation (the HTTP library is external
to this repository): the option key `https.request` consults to decide
TLS certificate verification. -/
def nodeTlsVerifyOptionKey : String := "rejectUnauthorized"

/-- A concrete configuration for the closed scenarios below. -/
def cfg0 : Config :=
  { baseUrl := "https://h", username := "u", password := "p", rejectUnauthorized := false }

/-- Scenario environment: discovery answers with controller id `C1`;
login answers `errorCode -30109` (bad credentials). -/
def envBadLogin : Env := fun req =>
  if req.url = "https://h/api/info" then
    .ok { status := 200, setCookies := [],
          data := .inl (.obj [("result", .obj [("omadacId", .str "C1")])]) }
  else if req.url = "https://h/C1/api/v2/login" then
    .ok { status := 200, setCookies := [],
          data := .inl (.obj [("errorCode", .num (-30109)),
            ("msg", .str "bad credentials")]) }
  else .error "unexpected request"

/-- Scenario environment: a fully successful handshake in which no
response sets any cookie and the single site entry carries no `id`
field. -/
def envQuiet : Env := fun req =>
  if req.url = "https://h/api/info" then
    .ok { status := 200, setCookies := [],
          data := .inl (.obj [("result", .obj [("omadacId", .str "C1")])]) }
  else if req.url = "https://h/C1/api/v2/login" then
    .ok { status := 200, setCookies := [],
          data := .inl (.obj [("errorCode", .num 0),
            ("result", .obj [("token", .str "T1")])]) }
  else if req.url = "https://h/C1/api/v2/sites?token=T1&currentPage=1&currentPageSize=100" then
    .ok { status := 200, setCookies := [],
          data := .inl (.obj [("errorCode", .num 0),
            ("result", .obj [("data", .arr [.obj [("name", .str "Default")]])])]) }
  else .error "unexpected request"

/-- Scenario environment: a fully successful handshake in which the very
first discovery (recognizable by its lack of a `Cookie` header) sets a
cookie `A=1` that no later response ever sets again, and login sets the
session cookie. -/
def envSticky : Env := fun req =>
  if req.url = "https://h/api/info" then
    .ok { status := 200,
          setCookies := if req.cookieHeader = none then ["A=1"] else [],
          data := .inl (.obj [("result", .obj [("omadacId", .str "C1")])]) }
  else if req.url = "https://h/C1/api/v2/login" then
    .ok { status := 200, setCookies := ["SESSION=S1; Path=/"],
          data := .inl (.obj [("errorCode", .num 0),
            ("result", .obj [("token", .str "T1")])]) }
  else if req.url = "https://h/C1/api/v2/sites?token=T1&currentPage=1&currentPageSize=100" then
    .ok { status := 200, setCookies := [],
          data := .inl (.obj [("errorCode", .num 0),
            ("result", .obj [("data",
              .arr [.obj [("id", .str "S1"), ("name", .str "Default")]])])]) }
  else .error "unexpected request"

/-- Environment in which every dispatch fails at the transport level. -/
def envDown : Env := fun _ => .error "connection refused"

/-- Environment answering every request with a non-JSON (HTML) body. -/
def envHtml : Env := fun _ =>
  .ok { status := 200, setCookies := [], data := .inr "<html>login page</html>" }

/-- Environment answering every request with an application-level error
envelope (`errorCode -30109`) and a session cookie. -/
def envAppError : Env := fun _ =>
  .ok { status := 200, setCookies := ["SESSION=S2"],
        data := .inl (.obj [("errorCode", .num (-30109)), ("msg", .str "expired")]) }

/-- The `omadacId` chain read by step 1. -/
def omadacIdOf (d : Json ⊕ String) : Option Json :=
  (dataGet d "result").bind (fun j => j.get "omadacId")

/-- The `token` chain read by step 2. -/
def tokenOf (d : Json ⊕ String) : Option Json :=
  (dataGet d "result").bind (fun j => j.get "token")

/-- The `result.data` chain read by step 3. -/
def siteListOf (d : Json ⊕ String) : Option Json :=
  (dataGet d "result").bind (fun j => j.get "data")

/-- Well-formedness of a cookie entry or incoming cookie part: it starts
with its own name followed by `=` (equivalently, it contains a `=`).  The
removal filter of `mergeCookie` matches exactly the well-formed entries of
a given name. -/
def wfCookie (e : String) : Prop := jsStartsWith e (cookieNameOf e ++ "=") = true

instance (e : String) : Decidable (wfCookie e) :=
  inferInstanceAs (Decidable (_ = true))

/-- A fully-established session, as used in the closed scenarios below. -/
def stEstablished : State :=
  { controllerId := some (Json.str "C1"), token := some (Json.str "T1"),
    cookies := ["TPOMADA_SESSIONID=abc"], siteId := some (Json.str "S1") }

/-! ### Basic lemmas about the request helper and the handshake steps -/

theorem request_inv_ok (cfg : Config) (env : Env) (st : State) (m u : String)
    (b : Option Json) (eff : DispatchEffect) (st' : State) (resp : Resp)
    (h : request cfg env st m u b = (eff, st', Except.ok resp)) :
    env (buildRequest cfg st m u b) = Except.ok resp ∧
      eff = ⟨buildRequest cfg st m u b, isHttps u⟩ ∧
      st' = { st with cookies := mergeCookies st.cookies resp.setCookies } := by
  unfold request at h
  cases henv : env (buildRequest cfg st m u b) <;> rw [henv] at h
  · exact absurd h (by simp)
  · simp only [Prod.mk.injEq, Except.ok.injEq] at h
    obtain ⟨h1, h2, h3⟩ := h
    subst h3
    exact ⟨rfl, h1.symm, h2.symm⟩

theorem request_ok (cfg : Config) (env : Env) (st : State) (m u : String)
    (b : Option Json) (resp : Resp)
    (h : env (buildRequest cfg st m u b) = Except.ok resp) :
    request cfg env st m u b =
      (⟨buildRequest cfg st m u b, isHttps u⟩,
        { st with cookies := mergeCookies st.cookies resp.setCookies },
        Except.ok resp) := by
  unfold request
  rw [h]

theorem request_err (cfg : Config) (env : Env) (st : State) (m u : String)
    (b : Option Json) (e : String)
    (h : env (buildRequest cfg st m u b) = Except.error e) :
    request cfg env st m u b =
      (⟨buildRequest cfg st m u b, isHttps u⟩, st, Except.error e) := by
  unfold request
  rw [h]

theorem request_controllerId (cfg : Config) (env : Env) (st : State) (m u : String)
    (b : Option Json) : ((request cfg env st m u b).2.1).controllerId = st.controllerId := by
  unfold request
  cases env (buildRequest cfg st m u b) <;> rfl

theorem request_token (cfg : Config) (env : Env) (st : State) (m u : String)
    (b : Option Json) : ((request cfg env st m u b).2.1).token = st.token := by
  unfold request
  cases env (buildRequest cfg st m u b) <;> rfl

theorem request_siteId (cfg : Config) (env : Env) (st : State) (m u : String)
    (b : Option Json) : ((request cfg env st m u b).2.1).siteId = st.siteId := by
  unfold request
  cases env (buildRequest cfg st m u b) <;> rfl

theorem request_cookies_eqn (cfg : Config) (env : Env) (st : State) (m u : String)
    (b : Option Json) :
    ((request cfg env st m u b).2.1).cookies =
      match env (buildRequest cfg st m u b) with
      | .ok r => mergeCookies st.cookies r.setCookies
      | .error _ => st.cookies := by
  unfold request
  cases env (buildRequest cfg st m u b) <;> rfl

theorem getControllerId_cases (cfg : Config) (env : Env) (st : State) :
    (∃ eff st' e,
      request cfg env st "GET" (infoUrl cfg) none = (eff, st', Except.error e) ∧
      getControllerId cfg env st = ([eff], st', some (OmadaError.transport e))) ∨
    (∃ eff st' resp,
      request cfg env st "GET" (infoUrl cfg) none = (eff, st', Except.ok resp) ∧
      jsTruthyO (omadacIdOf resp.data) = true ∧
      getControllerId cfg env st =
        ([eff], { st' with controllerId := omadacIdOf resp.data }, none)) ∨
    (∃ eff st' resp,
      request cfg env st "GET" (infoUrl cfg) none = (eff, st', Except.ok resp) ∧
      jsTruthyO (omadacIdOf resp.data) = false ∧
      getControllerId cfg env st = ([eff], st', some (OmadaError.controllerIdNotFound resp.data))) := by
  unfold getControllerId
  rcases hreq : request cfg env st "GET" (infoUrl cfg) none with ⟨eff, st', r⟩
  rcases r with e | resp
  · exact Or.inl ⟨eff, st', e, rfl, rfl⟩
  · cases hg : jsTruthyO (omadacIdOf resp.data)
    · have hg' : jsTruthyO ((dataGet resp.data "result").bind (fun j => j.get "omadacId")) = false := hg
      refine Or.inr (Or.inr ⟨eff, st', resp, rfl, hg, ?_⟩)
      simp only [hg']
      rfl
    · have hg' : jsTruthyO ((dataGet resp.data "result").bind (fun j => j.get "omadacId")) = true := hg
      refine Or.inr (Or.inl ⟨eff, st', resp, rfl, hg, ?_⟩)
      simp only [hg']
      rfl

theorem login_cases (cfg : Config) (env : Env) (st : State) :
    (∃ eff st' e,
      request cfg env st "POST" (loginUrl cfg st) (some (loginBody cfg)) =
        (eff, st', Except.error e) ∧
      login cfg env st = ([eff], st', some (OmadaError.transport e))) ∨
    (∃ eff st' resp t,
      request cfg env st "POST" (loginUrl cfg st) (some (loginBody cfg)) =
        (eff, st', Except.ok resp) ∧
      loginGuard resp.data = true ∧ tokenOf resp.data = some (Json.str t) ∧
      login cfg env st = ([eff], { st' with token := some (Json.str t) }, none)) ∨
    (∃ eff st' resp,
      request cfg env st "POST" (loginUrl cfg st) (some (loginBody cfg)) =
        (eff, st', Except.ok resp) ∧
      loginGuard resp.data = true ∧ (∀ t, tokenOf resp.data ≠ some (Json.str t)) ∧
      login cfg env st =
        ([eff], { st' with token := tokenOf resp.data }, some OmadaError.jsTypeError)) ∨
    (∃ eff st' resp,
      request cfg env st "POST" (loginUrl cfg st) (some (loginBody cfg)) =
        (eff, st', Except.ok resp) ∧
      loginGuard resp.data = false ∧
      login cfg env st = ([eff], st', some (OmadaError.loginFailed resp.data))) := by
  unfold login
  rcases hreq : request cfg env st "POST" (loginUrl cfg st) (some (loginBody cfg)) with
    ⟨eff, st', r⟩
  rcases r with e | resp
  · exact Or.inl ⟨eff, st', e, rfl, rfl⟩
  · cases hg : loginGuard resp.data
    · refine Or.inr (Or.inr (Or.inr ⟨eff, st', resp, rfl, hg, ?_⟩))
      simp only [hg]
      rfl
    · rcases hm : tokenOf resp.data with _ | j
      · have hm' : (dataGet resp.data "result").bind (fun j => j.get "token") = none := hm
        refine Or.inr (Or.inr (Or.inl ⟨eff, st', resp, rfl, hg, ?_, ?_⟩))
        · intro t
          rw [hm]
          exact fun h => Option.noConfusion h
        · simp only [hg, hm', hm]
          rfl
      · have hm' : (dataGet resp.data "result").bind (fun k => k.get "token") = some j := hm
        cases j
        case str t =>
          refine Or.inr (Or.inl ⟨eff, st', resp, t, rfl, hg, hm, ?_⟩)
          simp only [hg, hm']
          rfl
        all_goals
          refine Or.inr (Or.inr (Or.inl ⟨eff, st', resp, rfl, hg, ?_, ?_⟩))
        all_goals try
          (intro t hcontra
           rw [hm] at hcontra
           exact Json.noConfusion (Option.some.injEq _ _ ▸ hcontra))
        all_goals
          (simp only [hg, hm', hm]
           rfl)

theorem getSiteId_cases (cfg : Config) (env : Env) (st : State) :
    (∃ eff st' e,
      request cfg env st "GET" (sitesUrl cfg st) none = (eff, st', Except.error e) ∧
      getSiteId cfg env st = ([eff], st', some (OmadaError.transport e))) ∨
    (∃ eff st' resp elem,
      request cfg env st "GET" (sitesUrl cfg st) none = (eff, st', Except.ok resp) ∧
      jsGtZero ((siteListOf resp.data).bind jsLength) = true ∧
      (siteListOf resp.data).bind (fun j => j.index 0) = some elem ∧ elem ≠ Json.null ∧
      getSiteId cfg env st = ([eff], { st' with siteId := elem.get "id" }, none)) ∨
    (∃ eff st' resp,
      request cfg env st "GET" (sitesUrl cfg st) none = (eff, st', Except.ok resp) ∧
      jsGtZero ((siteListOf resp.data).bind jsLength) = true ∧
      ((siteListOf resp.data).bind (fun j => j.index 0) = none ∨
        (siteListOf resp.data).bind (fun j => j.index 0) = some Json.null) ∧
      getSiteId cfg env st = ([eff], st', some OmadaError.jsTypeError)) ∨
    (∃ eff st' resp,
      request cfg env st "GET" (sitesUrl cfg st) none = (eff, st', Except.ok resp) ∧
      jsGtZero ((siteListOf resp.data).bind jsLength) = false ∧
      getSiteId cfg env st = ([eff], st', some (OmadaError.noSites resp.data))) := by
  unfold getSiteId
  rcases hreq : request cfg env st "GET" (sitesUrl cfg st) none with ⟨eff, st', r⟩
  rcases r with e | resp
  · exact Or.inl ⟨eff, st', e, rfl, rfl⟩
  · cases hg : jsGtZero ((siteListOf resp.data).bind jsLength)
    · have hg' :
          jsGtZero (((dataGet resp.data "result").bind (fun j => j.get "data")).bind jsLength) =
            false := hg
      refine Or.inr (Or.inr (Or.inr ⟨eff, st', resp, rfl, hg, ?_⟩))
      simp only [hg']
      rfl
    · have hg' :
          jsGtZero (((dataGet resp.data "result").bind (fun j => j.get "data")).bind jsLength) =
            true := hg
      rcases hm : (siteListOf resp.data).bind (fun j => j.index 0) with _ | j
      · have hm' :
            ((dataGet resp.data "result").bind (fun j => j.get "data")).bind
              (fun j => j.index 0) = none := hm
        refine Or.inr (Or.inr (Or.inl ⟨eff, st', resp, rfl, hg, Or.inl hm, ?_⟩))
        simp only [hg', hm']
        rfl
      · have hm' :
            ((dataGet resp.data "result").bind (fun k => k.get "data")).bind
              (fun k => k.index 0) = some j := hm
        cases j
        case null =>
          refine Or.inr (Or.inr (Or.inl ⟨eff, st', resp, rfl, hg, Or.inr hm, ?_⟩))
          simp only [hg', hm']
          rfl
        all_goals
          refine Or.inr (Or.inl ⟨eff, st', resp, _, rfl, hg, hm, ?_, ?_⟩)
        all_goals try (intro hcontra; exact Json.noConfusion hcontra)
        all_goals
          (simp only [hg', hm']
           rfl)

theorem getControllerId_token (cfg : Config) (env : Env) (st : State) :
    ((getControllerId cfg env st).2.1).token = st.token := by
  have hr := fun m u b => request_token cfg env st m u b
  rcases getControllerId_cases cfg env st with
    ⟨eff, st', e, hreq, hstep⟩ | ⟨eff, st', resp, hreq, hg, hstep⟩ |
    ⟨eff, st', resp, hreq, hg, hstep⟩ <;>
  · rw [hstep]
    have h := hr "GET" (infoUrl cfg) none
    rw [hreq] at h
    exact h

theorem getControllerId_siteId (cfg : Config) (env : Env) (st : State) :
    ((getControllerId cfg env st).2.1).siteId = st.siteId := by
  have hr := fun m u b => request_siteId cfg env st m u b
  rcases getControllerId_cases cfg env st with
    ⟨eff, st', e, hreq, hstep⟩ | ⟨eff, st', resp, hreq, hg, hstep⟩ |
    ⟨eff, st', resp, hreq, hg, hstep⟩ <;>
  · rw [hstep]
    have h := hr "GET" (infoUrl cfg) none
    rw [hreq] at h
    exact h

theorem getControllerId_length (cfg : Config) (env : Env) (st : State) :
    ((getControllerId cfg env st).1).length = 1 := by
  rcases getControllerId_cases cfg env st with
    ⟨eff, st', e, hreq, hstep⟩ | ⟨eff, st', resp, hreq, hg, hstep⟩ |
    ⟨eff, st', resp, hreq, hg, hstep⟩ <;> simp [hstep]

theorem getControllerId_err_controllerId (cfg : Config) (env : Env) (st : State)
    (h : ((getControllerId cfg env st).2.2).isSome = true) :
    ((getControllerId cfg env st).2.1).controllerId = st.controllerId := by
  have hr := request_controllerId cfg env st "GET" (infoUrl cfg) none
  rcases getControllerId_cases cfg env st with
    ⟨eff, st', e, hreq, hstep⟩ | ⟨eff, st', resp, hreq, hg, hstep⟩ |
    ⟨eff, st', resp, hreq, hg, hstep⟩ <;> rw [hreq] at hr <;> rw [hstep]
  · exact hr
  · rw [hstep] at h
    simp at h
  · exact hr

theorem getControllerId_ok_truthy (cfg : Config) (env : Env) (st : State)
    (h : (getControllerId cfg env st).2.2 = none) :
    jsTruthyO (((getControllerId cfg env st).2.1).controllerId) = true := by
  rcases getControllerId_cases cfg env st with
    ⟨eff, st', e, hreq, hstep⟩ | ⟨eff, st', resp, hreq, hg, hstep⟩ |
    ⟨eff, st', resp, hreq, hg, hstep⟩ <;> rw [hstep] at h ⊢ <;> simp_all

theorem login_controllerId (cfg : Config) (env : Env) (st : State) :
    ((login cfg env st).2.1).controllerId = st.controllerId := by
  have hr := request_controllerId cfg env st "POST" (loginUrl cfg st) (some (loginBody cfg))
  rcases login_cases cfg env st with
    ⟨eff, st', e, hreq, hstep⟩ | ⟨eff, st', resp, t, hreq, hg, hm, hstep⟩ |
    ⟨eff, st', resp, hreq, hg, hm, hstep⟩ | ⟨eff, st', resp, hreq, hg, hstep⟩ <;>
      rw [hreq] at hr <;> rw [hstep] <;> exact hr

theorem login_siteId (cfg : Config) (env : Env) (st : State) :
    ((login cfg env st).2.1).siteId = st.siteId := by
  have hr := request_siteId cfg env st "POST" (loginUrl cfg st) (some (loginBody cfg))
  rcases login_cases cfg env st with
    ⟨eff, st', e, hreq, hstep⟩ | ⟨eff, st', resp, t, hreq, hg, hm, hstep⟩ |
    ⟨eff, st', resp, hreq, hg, hm, hstep⟩ | ⟨eff, st', resp, hreq, hg, hstep⟩ <;>
      rw [hreq] at hr <;> rw [hstep] <;> exact hr

theorem login_length (cfg : Config) (env : Env) (st : State) :
    ((login cfg env st).1).length = 1 := by
  rcases login_cases cfg env st with
    ⟨eff, st', e, hreq, hstep⟩ | ⟨eff, st', resp, t, hreq, hg, hm, hstep⟩ |
    ⟨eff, st', resp, hreq, hg, hm, hstep⟩ | ⟨eff, st', resp, hreq, hg, hstep⟩ <;>
      simp [hstep]

theorem login_failed_token (cfg : Config) (env : Env) (st : State) (d : Json ⊕ String)
    (h : (login cfg env st).2.2 = some (OmadaError.loginFailed d)) :
    ((login cfg env st).2.1).token = st.token := by
  have hr := request_token cfg env st "POST" (loginUrl cfg st) (some (loginBody cfg))
  rcases login_cases cfg env st with
    ⟨eff, st', e, hreq, hstep⟩ | ⟨eff, st', resp, t, hreq, hg, hm, hstep⟩ |
    ⟨eff, st', resp, hreq, hg, hm, hstep⟩ | ⟨eff, st', resp, hreq, hg, hstep⟩ <;>
      rw [hreq] at hr <;> rw [hstep] at h ⊢ <;> simp_all

theorem login_transport_token (cfg : Config) (env : Env) (st : State) (e : String)
    (h : (login cfg env st).2.2 = some (OmadaError.transport e)) :
    ((login cfg env st).2.1).token = st.token := by
  have hr := request_token cfg env st "POST" (loginUrl cfg st) (some (loginBody cfg))
  rcases login_cases cfg env st with
    ⟨eff, st', e', hreq, hstep⟩ | ⟨eff, st', resp, t, hreq, hg, hm, hstep⟩ |
    ⟨eff, st', resp, hreq, hg, hm, hstep⟩ | ⟨eff, st', resp, hreq, hg, hstep⟩ <;>
      rw [hreq] at hr <;> rw [hstep] at h ⊢ <;> simp_all

theorem login_ok_token (cfg : Config) (env : Env) (st : State)
    (h : (login cfg env st).2.2 = none) :
    ∃ t, ((login cfg env st).2.1).token = some (Json.str t) ∧ t ≠ "" := by
  rcases login_cases cfg env st with
    ⟨eff, st', e, hreq, hstep⟩ | ⟨eff, st', resp, t, hreq, hg, hm, hstep⟩ |
    ⟨eff, st', resp, hreq, hg, hm, hstep⟩ | ⟨eff, st', resp, hreq, hg, hstep⟩
  · rw [hstep] at h
    simp at h
  · rw [hstep]
    refine ⟨t, rfl, ?_⟩
    have hguard : loginGuard resp.data = true := hg
    unfold loginGuard at hguard
    rw [Bool.and_eq_true] at hguard
    have htr : jsTruthyO (tokenOf resp.data) = true := hguard.2
    rw [hm] at htr
    simp only [jsTruthyO, Json.truthy] at htr
    simpa using htr
  · rw [hstep] at h
    simp at h
  · rw [hstep] at h
    simp at h

theorem getSiteId_controllerId (cfg : Config) (env : Env) (st : State) :
    ((getSiteId cfg env st).2.1).controllerId = st.controllerId := by
  have hr := request_controllerId cfg env st "GET" (sitesUrl cfg st) none
  rcases getSiteId_cases cfg env st with
    ⟨eff, st', e, hreq, hstep⟩ | ⟨eff, st', resp, elem, hreq, hg, hm, hne, hstep⟩ |
    ⟨eff, st', resp, hreq, hg, hm, hstep⟩ | ⟨eff, st', resp, hreq, hg, hstep⟩ <;>
      rw [hreq] at hr <;> rw [hstep] <;> exact hr

theorem getSiteId_token (cfg : Config) (env : Env) (st : State) :
    ((getSiteId cfg env st).2.1).token = st.token := by
  have hr := request_token cfg env st "GET" (sitesUrl cfg st) none
  rcases getSiteId_cases cfg env st with
    ⟨eff, st', e, hreq, hstep⟩ | ⟨eff, st', resp, elem, hreq, hg, hm, hne, hstep⟩ |
    ⟨eff, st', resp, hreq, hg, hm, hstep⟩ | ⟨eff, st', resp, hreq, hg, hstep⟩ <;>
      rw [hreq] at hr <;> rw [hstep] <;> exact hr

theorem getSiteId_length (cfg : Config) (env : Env) (st : State) :
    ((getSiteId cfg env st).1).length = 1 := by
  rcases getSiteId_cases cfg env st with
    ⟨eff, st', e, hreq, hstep⟩ | ⟨eff, st', resp, elem, hreq, hg, hm, hne, hstep⟩ |
    ⟨eff, st', resp, hreq, hg, hm, hstep⟩ | ⟨eff, st', resp, hreq, hg, hstep⟩ <;>
      simp [hstep]

theorem getSiteId_err_siteId (cfg : Config) (env : Env) (st : State)
    (h : ((getSiteId cfg env st).2.2).isSome = true) :
    ((getSiteId cfg env st).2.1).siteId = st.siteId := by
  have hr := request_siteId cfg env st "GET" (sitesUrl cfg st) none
  rcases getSiteId_cases cfg env st with
    ⟨eff, st', e, hreq, hstep⟩ | ⟨eff, st', resp, elem, hreq, hg, hm, hne, hstep⟩ |
    ⟨eff, st', resp, hreq, hg, hm, hstep⟩ | ⟨eff, st', resp, hreq, hg, hstep⟩ <;>
      rw [hreq] at hr <;> rw [hstep] at h ⊢ <;> simp_all

theorem connect_err1 (cfg : Config) (env : Env) (st : State)
    (h : ((getControllerId cfg env st).2.2).isSome = true) :
    connect cfg env st = getControllerId cfg env st := by
  unfold connect
  rcases h1 : getControllerId cfg env st with ⟨t1, st1, e1⟩
  rcases e1 with _ | e
  · rw [h1] at h
    simp at h
  · rfl

theorem connect_err2 (cfg : Config) (env : Env) (st : State)
    (h1 : (getControllerId cfg env st).2.2 = none)
    (h2 : ((login cfg env (getControllerId cfg env st).2.1).2.2).isSome = true) :
    connect cfg env st =
      ((getControllerId cfg env st).1 ++ (login cfg env (getControllerId cfg env st).2.1).1,
        (login cfg env (getControllerId cfg env st).2.1).2.1,
        (login cfg env (getControllerId cfg env st).2.1).2.2) := by
  unfold connect
  rcases hg : getControllerId cfg env st with ⟨t1, st1, e1⟩
  rw [hg] at h1
  simp only at h1
  subst h1
  dsimp only
  rw [hg] at h2
  dsimp only at h2
  rcases hl : login cfg env st1 with ⟨t2, st2, e2⟩
  rw [hl] at h2
  dsimp only at h2
  rcases e2 with _ | e
  · simp at h2
  · rfl

theorem connect_ok12 (cfg : Config) (env : Env) (st : State)
    (h1 : (getControllerId cfg env st).2.2 = none)
    (h2 : (login cfg env (getControllerId cfg env st).2.1).2.2 = none) :
    connect cfg env st =
      ((getControllerId cfg env st).1 ++
          (login cfg env (getControllerId cfg env st).2.1).1 ++
          (getSiteId cfg env (login cfg env (getControllerId cfg env st).2.1).2.1).1,
        (getSiteId cfg env (login cfg env (getControllerId cfg env st).2.1).2.1).2.1,
        (getSiteId cfg env (login cfg env (getControllerId cfg env st).2.1).2.1).2.2) := by
  unfold connect
  rcases hg : getControllerId cfg env st with ⟨t1, st1, e1⟩
  rw [hg] at h1
  simp only at h1
  subst h1
  dsimp only
  rw [hg] at h2
  dsimp only at h2
  rcases hl : login cfg env st1 with ⟨t2, st2, e2⟩
  rw [hl] at h2
  dsimp only at h2
  subst h2
  rfl

theorem connect_ok_inv (cfg : Config) (env : Env) (st : State)
    (h : (connect cfg env st).2.2 = none) :
    (getControllerId cfg env st).2.2 = none ∧
      (login cfg env (getControllerId cfg env st).2.1).2.2 = none ∧
      (getSiteId cfg env (login cfg env (getControllerId cfg env st).2.1).2.1).2.2 = none := by
  unfold connect at h
  rcases hg : getControllerId cfg env st with ⟨t1, st1, e1⟩
  rw [hg] at h
  rcases e1 with _ | e
  · dsimp only at h
    rcases hl : login cfg env st1 with ⟨t2, st2, e2⟩
    rw [hl] at h
    rcases e2 with _ | e
    · dsimp only at h
      rcases hs : getSiteId cfg env st2 with ⟨t3, st3, e3⟩
      rw [hs] at h
      exact ⟨rfl, rfl, h⟩
    · simp at h
  · simp at h

theorem request_eff (cfg : Config) (env : Env) (st : State) (m u : String)
    (b : Option Json) :
    (request cfg env st m u b).1 = ⟨buildRequest cfg st m u b, isHttps u⟩ := by
  unfold request
  cases env (buildRequest cfg st m u b) <;> rfl

/-! ### Claim theorems -/

/-- C6: Cookie merge is last-write-wins per cookie name.  For any store
and incoming `set-cookie` directive, membership in the merged store is
exactly: either the incoming cookie part itself, or a previously stored
entry that does not carry the incoming cookie's name (in the form
`name=...`); in particular merging `A=2` into a store holding `A=1`
yields exactly `["A=2"]`.  The third conjunct ties the merge to the
response handler of `request`: on a response the new cookie store is the
fold of the merge over the response's `set-cookie` directives, and a
transport failure leaves the store unchanged. -/
theorem spec_c6_cookie_lww :
    (∀ (store : List String) (c e : String),
      e ∈ mergeCookie store c ↔
        (e ∈ store ∧ jsStartsWith e (cookieNameOf (cookiePart c) ++ "=") = false) ∨
          e = cookiePart c) ∧
    mergeCookies ["A=1"] ["A=2"] = ["A=2"] ∧
    (∀ (cfg : Config) (env : Env) (st : State) (m u : String) (b : Option Json),
      ((request cfg env st m u b).2.1).cookies =
        match env (buildRequest cfg st m u b) with
        | .ok r => mergeCookies st.cookies r.setCookies
        | .error _ => st.cookies) := by
  refine ⟨?_, by decide, request_cookies_eqn⟩
  intro store c e
  show e ∈
      (store.filter fun existing =>
        !(jsStartsWith existing (cookieNameOf (cookiePart c) ++ "="))) ++ [cookiePart c] ↔ _
  rw [List.mem_append, List.mem_filter, List.mem_singleton]
  simp [Bool.not_eq_true']

/-- C5: With an established session (controller identity, site identifier
and a non-empty token, all strings), every `apiCall` dispatches exactly
one request whose URL is the concatenation of the base address, the
controller identity, the fixed `/api/v2/sites/` prefix, the site
identifier, the given path, and the token as a query parameter joined
with `&` when the path already contains `?` and with `?` otherwise; the
same token is attached as the `Csrf-Token` header. -/
theorem spec_c5_call_url (cfg : Config) (env : Env) (st : State) (m path : String)
    (body : Option Json) (c s t : String)
    (hc : st.controllerId = some (Json.str c)) (hs : st.siteId = some (Json.str s))
    (ht : st.token = some (Json.str t)) (hne : t ≠ "") :
    ((apiCall cfg env st m path body).1).map (fun e => (e.req.url, e.req.csrfToken)) =
      [(cfg.baseUrl ++ "/" ++ c ++ "/api/v2/sites/" ++ s ++ path ++
          (if path.toList.contains '?' then "&" else "?") ++ "token=" ++ t,
        some (Json.str t))] := by
  have he := request_eff cfg env st m (apiUrl cfg st path) body
  unfold apiCall
  rcases hreq : request cfg env st m (apiUrl cfg st path) body with ⟨eff, st', r⟩
  rw [hreq] at he
  dsimp only at he
  rcases r with e | resp <;>
  · dsimp only
    rw [List.map_cons, List.map_nil, he]
    simp [buildRequest, apiUrl, jsShow, Json.jsToString, jsTruthyO, Json.truthy,
      hc, hs, ht, hne]

/-- C5 witness: a concrete established session and the path `/x?y=1`
(which already carries a query string) produce the URL joined with `&`
and the `Csrf-Token` header `T1`. -/
theorem spec_c5_call_url_witness :
    ((apiCall cfg0 envDown stEstablished "GET" "/x?y=1" none).1).map
        (fun e => (e.req.url, e.req.csrfToken)) =
      [("https://h/C1/api/v2/sites/S1/x?y=1&token=T1", some (Json.str "T1"))] := by
  have h := spec_c5_call_url cfg0 envDown stEstablished "GET" "/x?y=1" none "C1" "S1" "T1"
    rfl rfl rfl (by decide)
  rw [h]
  rfl

/-- C7: `apiCall` never throws on an application-level error.  On any
transport-level response, the parsed body is returned as-is (whatever its
embedded `errorCode`, and raw text if it was not JSON) after exactly one
dispatch with no retry and no re-authentication; on a transport failure,
exactly that error propagates with the state unchanged. -/
theorem spec_c7_call_error_as_data (cfg : Config) (env : Env) (st : State)
    (m path : String) (body : Option Json) :
    (∀ resp : Resp,
      env (buildRequest cfg st m (apiUrl cfg st path) body) = Except.ok resp →
      apiCall cfg env st m path body =
        ([⟨buildRequest cfg st m (apiUrl cfg st path) body, isHttps (apiUrl cfg st path)⟩],
          { st with cookies := mergeCookies st.cookies resp.setCookies },
          Except.ok resp.data)) ∧
    (∀ e : String,
      env (buildRequest cfg st m (apiUrl cfg st path) body) = Except.error e →
      apiCall cfg env st m path body =
        ([⟨buildRequest cfg st m (apiUrl cfg st path) body, isHttps (apiUrl cfg st path)⟩],
          st, Except.error e)) := by
  constructor
  · intro resp h
    unfold apiCall
    rw [request_ok cfg env st m (apiUrl cfg st path) body resp h]
  · intro e h
    unfold apiCall
    rw [request_err cfg env st m (apiUrl cfg st path) body e h]

/-- C7 witness: an envelope with embedded `errorCode -30109` is returned
as data (no exception), with the response cookie merged. -/
theorem spec_c7_witness :
    apiCall cfg0 envAppError stEstablished "GET" "/devices" none =
      ([⟨buildRequest cfg0 stEstablished "GET" (apiUrl cfg0 stEstablished "/devices") none,
          isHttps (apiUrl cfg0 stEstablished "/devices")⟩],
        { stEstablished with
            cookies := mergeCookies stEstablished.cookies ["SESSION=S2"] },
        Except.ok (Sum.inl (Json.obj
          [("errorCode", Json.num (-30109)), ("msg", Json.str "expired")]))) :=
  (spec_c7_call_error_as_data cfg0 envAppError stEstablished "GET" "/devices" none).1
    { status := 200, setCookies := ["SESSION=S2"],
      data := .inl (.obj [("errorCode", .num (-30109)), ("msg", .str "expired")]) } rfl

/-- C8: `apiCall` before any successful `connect` (all session fields
still `null`) raises no error locally: it dispatches exactly one request,
whose URL interpolates the literal `"null"` for the controller identity,
the site identifier and the token, and which carries neither a
`Csrf-Token` nor a `Cookie` header; whatever body the environment answers
is returned as data. -/
theorem spec_c8_unconnected_call (cfg : Config) (env : Env) (m path : String)
    (body : Option Json) :
    ((apiCall cfg env initialState m path body).1).map
        (fun e => (e.req.url, e.req.csrfToken, e.req.cookieHeader)) =
      [(cfg.baseUrl ++ "/" ++ "null" ++ "/api/v2/sites/" ++ "null" ++ path ++
          (if path.toList.contains '?' then "&" else "?") ++ "token=" ++ "null",
        none, none)] ∧
    (∀ resp : Resp,
      env (buildRequest cfg initialState m (apiUrl cfg initialState path) body) =
        Except.ok resp →
      (apiCall cfg env initialState m path body).2.2 = Except.ok resp.data) := by
  constructor
  · have he := request_eff cfg env initialState m (apiUrl cfg initialState path) body
    unfold apiCall
    rcases hreq : request cfg env initialState m (apiUrl cfg initialState path) body with
      ⟨eff, st', r⟩
    rw [hreq] at he
    dsimp only at he
    rcases r with e | resp <;>
    · dsimp only
      rw [List.map_cons, List.map_nil, he]
      simp [buildRequest, apiUrl, jsShow, jsTruthyO, initialState]
  · intro resp h
    unfold apiCall
    rw [request_ok cfg env initialState m (apiUrl cfg initialState path) body resp h]

/-- C8 witness: a GET to `/devices` on a fresh client still dispatches
and returns the environment's non-JSON body as raw text. -/
theorem spec_c8_witness :
    (apiCall cfg0 envHtml initialState "GET" "/devices" none).2.2 =
      Except.ok (Sum.inr "<html>login page</html>") :=
  (spec_c8_unconnected_call cfg0 envHtml "GET" "/devices" none).2
    { status := 200, setCookies := [], data := .inr "<html>login page</html>" } rfl

/-- C9: The configured `rejectUnauthorized` flag has no effect on TLS
verification.  The key the source writes (`rejectAuthorized`) is not the
key the HTTP library consults (`rejectUnauthorized`, which appears
nowhere among the written option keys), so the option is ignored; and
every dispatch of an `https:` URL sets the process-wide
`NODE_TLS_REJECT_UNAUTHORIZED` variable to `"0"`, a fact that depends
only on the URL scheme and not on the configuration. -/
theorem spec_c9_tls_misconfig :
    nodeTlsVerifyOptionKey ∉ optionKeysSet ∧
    "rejectAuthorized" ∈ optionKeysSet ∧
    "rejectAuthorized" ≠ nodeTlsVerifyOptionKey ∧
    (∀ (cfg : Config) (env : Env) (st : State) (m u : String) (b : Option Json),
      ((request cfg env st m u b).1).req.rejectAuthorized = cfg.rejectUnauthorized ∧
      ((request cfg env st m u b).1).tlsEnvSetToZero = isHttps u) := by
  refine ⟨by decide, by decide, by decide, ?_⟩
  intro cfg env st m u b
  rw [request_eff cfg env st m u b]
  exact ⟨rfl, rfl⟩

/-- C4: Whenever discovery has succeeded and the login response arrives
but fails the success test (`errorCode` not strictly `0`, or no truthy
token — e.g. `errorCode -30109`, bad credentials), `connect` raises the
authentication error of the login step (`Login failed`, carrying the
response body) and no further handshake step is attempted: exactly two
requests are dispatched, so site resolution is never called. -/
theorem spec_c4_login_failure_aborts (cfg : Config) (env : Env) (st : State) (resp : Resp)
    (h1 : (getControllerId cfg env st).2.2 = none)
    (h2 : env (buildRequest cfg (getControllerId cfg env st).2.1 "POST"
            (loginUrl cfg (getControllerId cfg env st).2.1) (some (loginBody cfg))) =
          Except.ok resp)
    (h3 : loginGuard resp.data = false) :
    (connect cfg env st).2.2 = some (OmadaError.loginFailed resp.data) ∧
      ((connect cfg env st).1).length = 2 := by
  have hlogin : login cfg env (getControllerId cfg env st).2.1 =
      ([⟨buildRequest cfg (getControllerId cfg env st).2.1 "POST"
            (loginUrl cfg (getControllerId cfg env st).2.1) (some (loginBody cfg)),
          isHttps (loginUrl cfg (getControllerId cfg env st).2.1)⟩],
        { (getControllerId cfg env st).2.1 with
            cookies := mergeCookies ((getControllerId cfg env st).2.1).cookies
              resp.setCookies },
        some (OmadaError.loginFailed resp.data)) := by
    unfold login
    rw [request_ok cfg env (getControllerId cfg env st).2.1 "POST"
      (loginUrl cfg (getControllerId cfg env st).2.1) (some (loginBody cfg)) resp h2]
    dsimp only
    simp [h3]
  have hconn := connect_err2 cfg env st h1 (by rw [hlogin]; rfl)
  rw [hconn, hlogin]
  refine ⟨rfl, ?_⟩
  rw [List.length_append, getControllerId_length]
  rfl

/-- C4 witness: the bad-credentials scenario (`errorCode -30109`) raises
the login failure carrying the response envelope, after exactly two
dispatches. -/
theorem spec_c4_witness :
    (connect cfg0 envBadLogin initialState).2.2 =
      some (OmadaError.loginFailed (Sum.inl (Json.obj
        [("errorCode", Json.num (-30109)), ("msg", Json.str "bad credentials")]))) ∧
      ((connect cfg0 envBadLogin initialState).1).length = 2 :=
  spec_c4_login_failure_aborts cfg0 envBadLogin initialState
    { status := 200, setCookies := [],
      data := .inl (.obj [("errorCode", .num (-30109)), ("msg", .str "bad credentials")]) }
    rfl rfl rfl

/-- C1 counterexample: under `envBadLogin` the handshake fails at login,
yet afterwards the controller identity is `some "C1"` while before the
call it was `none` — the session fields are not as they were before the
call, refuting the claim as stated. -/
theorem spec_c1_cex :
    ((connect cfg0 envBadLogin initialState).2.2).isSome = true ∧
      (connect cfg0 envBadLogin initialState).2.1.controllerId = some (Json.str "C1") ∧
      initialState.controllerId = none ∧
      (connect cfg0 envBadLogin initialState).2.1.controllerId ≠
        initialState.controllerId := by
  refine ⟨rfl, rfl, rfl, ?_⟩
  intro h
  rw [show (connect cfg0 envBadLogin initialState).2.1.controllerId =
      some (Json.str "C1") from rfl] at h
  exact Option.noConfusion h

/-- C1 (amended): every failing handshake step aborts `connect`
immediately — the error propagates and later steps are never attempted
(one dispatch for a discovery failure, two for a login failure, three for
a site failure) — and the fields owned by the failing and later steps are
unchanged; but mutations already performed are not rolled back (a
successful discovery's controller identity persists, and response cookies
are merged even on failing calls), so the session is signalled unusable
only by the raised error, not by a state rollback. -/
theorem spec_c1_abort_no_rollback (cfg : Config) (env : Env) (st : State) :
    (((getControllerId cfg env st).2.2).isSome = true →
      connect cfg env st = getControllerId cfg env st ∧
      (connect cfg env st).2.1.controllerId = st.controllerId ∧
      (connect cfg env st).2.1.token = st.token ∧
      (connect cfg env st).2.1.siteId = st.siteId ∧
      ((connect cfg env st).1).length = 1) ∧
    ((getControllerId cfg env st).2.2 = none →
      ((login cfg env (getControllerId cfg env st).2.1).2.2).isSome = true →
      ((connect cfg env st).2.2 = (login cfg env (getControllerId cfg env st).2.1).2.2 ∧
        (connect cfg env st).2.1.siteId = st.siteId ∧
        ((connect cfg env st).1).length = 2) ∧
      (∀ d, (login cfg env (getControllerId cfg env st).2.1).2.2 =
          some (OmadaError.loginFailed d) →
        (connect cfg env st).2.1.token = st.token)) ∧
    ((getControllerId cfg env st).2.2 = none →
      (login cfg env (getControllerId cfg env st).2.1).2.2 = none →
      ((getSiteId cfg env (login cfg env (getControllerId cfg env st).2.1).2.1).2.2).isSome =
        true →
      (connect cfg env st).2.2 =
          (getSiteId cfg env (login cfg env (getControllerId cfg env st).2.1).2.1).2.2 ∧
        (connect cfg env st).2.1.siteId = st.siteId ∧
        ((connect cfg env st).1).length = 3) := by
  refine ⟨?_, ?_, ?_⟩
  · intro h
    have hconn := connect_err1 cfg env st h
    rw [hconn]
    exact ⟨rfl, getControllerId_err_controllerId cfg env st h,
      getControllerId_token cfg env st, getControllerId_siteId cfg env st,
      getControllerId_length cfg env st⟩
  · intro h1 h2
    have hconn := connect_err2 cfg env st h1 h2
    constructor
    · refine ⟨by rw [hconn], ?_, ?_⟩
      · rw [hconn]
        dsimp only
        rw [login_siteId]
        exact getControllerId_siteId cfg env st
      · rw [hconn]
        dsimp only
        rw [List.length_append, getControllerId_length, login_length]
    · intro d hd
      rw [hconn]
      dsimp only
      rw [login_failed_token cfg env (getControllerId cfg env st).2.1 d hd]
      exact getControllerId_token cfg env st
  · intro h1 h2 h3
    have hconn := connect_ok12 cfg env st h1 h2
    refine ⟨by rw [hconn], ?_, ?_⟩
    · rw [hconn]
      dsimp only
      rw [getSiteId_err_siteId cfg env (login cfg env (getControllerId cfg env st).2.1).2.1 h3,
        login_siteId]
      exact getControllerId_siteId cfg env st
    · rw [hconn]
      dsimp only
      rw [List.length_append, List.length_append, getControllerId_length, login_length,
        getSiteId_length]

/-- C1 witness: in the bad-credentials scenario the abort is immediate —
two dispatches, site identifier untouched. -/
theorem spec_c1_witness :
    (connect cfg0 envBadLogin initialState).2.1.siteId = initialState.siteId ∧
      ((connect cfg0 envBadLogin initialState).1).length = 2 := by
  have h := (spec_c1_abort_no_rollback cfg0 envBadLogin initialState).2.1 rfl rfl
  exact ⟨h.1.2.1, h.1.2.2⟩

/-- C2 counterexample: under `envQuiet` the handshake succeeds (no error),
yet the cookie store is empty (no response ever set a cookie) and the
site identifier is unset (the first site entry carries no `id` field) —
refuting the claim that all four session fields are non-empty after every
successful `connect`. -/
theorem spec_c2_cex :
    ((connect cfg0 envQuiet initialState).2.2).isNone = true ∧
      (connect cfg0 envQuiet initialState).2.1.cookies = [] ∧
      (connect cfg0 envQuiet initialState).2.1.siteId = none :=
  ⟨rfl, rfl, rfl⟩

/-- C2 (amended): after every successful `connect`, the controller
identity is set and truthy and the token is a non-empty string; the
cookie store and the site identifier, however, may be empty — the store
holds exactly the merged `set-cookie` directives of the handshake
responses (none need exist), and the site identifier is whatever `id` the
first returned site entry carries (possibly nothing). -/
theorem spec_c2_success_fields (cfg : Config) (env : Env) (st : State)
    (h : (connect cfg env st).2.2 = none) :
    jsTruthyO ((connect cfg env st).2.1.controllerId) = true ∧
      ∃ t, (connect cfg env st).2.1.token = some (Json.str t) ∧ t ≠ "" := by
  obtain ⟨h1, h2, h3⟩ := connect_ok_inv cfg env st h
  have hconn := connect_ok12 cfg env st h1 h2
  constructor
  · rw [hconn]
    dsimp only
    rw [getSiteId_controllerId, login_controllerId]
    exact getControllerId_ok_truthy cfg env st h1
  · rw [hconn]
    dsimp only
    rw [getSiteId_token]
    exact login_ok_token cfg env (getControllerId cfg env st).2.1 h2

/-- C2 witness: in the sticky-cookie scenario the handshake succeeds with
a truthy controller identity and the non-empty token `T1`. -/
theorem spec_c2_witness :
    jsTruthyO ((connect cfg0 envSticky initialState).2.1.controllerId) = true ∧
      (connect cfg0 envSticky initialState).2.1.token = some (Json.str "T1") := by
  obtain ⟨ht, -⟩ := spec_c2_success_fields cfg0 envSticky initialState rfl
  exact ⟨ht, rfl⟩

/-- C3 counterexample: both back-to-back `connect` calls under
`envSticky` succeed, yet the cookie `A=1` — set only by the very first
discovery response (the one without a `Cookie` header) and never by any
response of the second run — is still present after the second call: the
cookie jar is merged, not cleared, so stale session data survives a
reconnect, refuting the claim as stated. -/
theorem spec_c3_cex :
    ((connect cfg0 envSticky initialState).2.2).isNone = true ∧
      (connect cfg0 envSticky initialState).2.1.cookies = ["A=1", "SESSION=S1"] ∧
      ((connect cfg0 envSticky (connect cfg0 envSticky initialState).2.1).2.2).isNone =
        true ∧
      (connect cfg0 envSticky (connect cfg0 envSticky initialState).2.1).2.1.cookies =
        ["A=1", "SESSION=S1"] ∧
      "A=1" ∈ (connect cfg0 envSticky (connect cfg0 envSticky initialState).2.1).2.1.cookies := by
  refine ⟨rfl, rfl, rfl, rfl, ?_⟩
  rw [show (connect cfg0 envSticky (connect cfg0 envSticky initialState).2.1).2.1.cookies =
      ["A=1", "SESSION=S1"] from rfl]
  decide

/-- C3 (amended): a successful `connect` — in particular the second of
two consecutive calls — replaces the controller identity, the token and
the site identifier with values extracted from its own three responses,
but the cookie jar is not cleared: the final store is the last-write-wins
merge of the prior store with the set-cookie directives of the three new
responses, so prior cookies whose names are not re-set are retained. -/
theorem spec_c3_replace_and_merge (cfg : Config) (env : Env) (st : State)
    (h : (connect cfg env st).2.2 = none) :
    ∃ e1 e2 e3 r1 r2 r3,
      (connect cfg env st).1 = [e1, e2, e3] ∧
      env e1.req = Except.ok r1 ∧ env e2.req = Except.ok r2 ∧
      env e3.req = Except.ok r3 ∧
      (connect cfg env st).2.1.controllerId = omadacIdOf r1.data ∧
      (connect cfg env st).2.1.token = tokenOf r2.data ∧
      (∃ elem, (siteListOf r3.data).bind (fun j => j.index 0) = some elem ∧
        (connect cfg env st).2.1.siteId = elem.get "id") ∧
      (connect cfg env st).2.1.cookies =
        mergeCookies (mergeCookies (mergeCookies st.cookies r1.setCookies) r2.setCookies)
          r3.setCookies := by
  obtain ⟨h1, h2, h3⟩ := connect_ok_inv cfg env st h
  have hconn := connect_ok12 cfg env st h1 h2
  rcases getControllerId_cases cfg env st with
    ⟨eff1, st1, e, hreq1, hstep1⟩ | ⟨eff1, st1, r1, hreq1, hg1, hstep1⟩ |
    ⟨eff1, st1, r1, hreq1, hg1, hstep1⟩
  · rw [hstep1] at h1
    simp at h1
  · obtain ⟨henv1, heff1, hst1⟩ :=
      request_inv_ok cfg env st "GET" (infoUrl cfg) none eff1 st1 r1 hreq1
    rcases login_cases cfg env (getControllerId cfg env st).2.1 with
      ⟨eff2, st2, e, hreq2, hstep2⟩ | ⟨eff2, st2, r2, t2, hreq2, hg2, hm2, hstep2⟩ |
      ⟨eff2, st2, r2, hreq2, hg2, hm2, hstep2⟩ | ⟨eff2, st2, r2, hreq2, hg2, hstep2⟩
    · rw [hstep2] at h2
      simp at h2
    · obtain ⟨henv2, heff2, hst2⟩ :=
        request_inv_ok cfg env (getControllerId cfg env st).2.1 "POST"
          (loginUrl cfg (getControllerId cfg env st).2.1) (some (loginBody cfg))
          eff2 st2 r2 hreq2
      rcases getSiteId_cases cfg env (login cfg env (getControllerId cfg env st).2.1).2.1 with
        ⟨eff3, st3, e, hreq3, hstep3⟩ |
        ⟨eff3, st3, r3, elem, hreq3, hg3, hm3, hne3, hstep3⟩ |
        ⟨eff3, st3, r3, hreq3, hg3, hm3, hstep3⟩ | ⟨eff3, st3, r3, hreq3, hg3, hstep3⟩
      · rw [hstep3] at h3
        simp at h3
      · obtain ⟨henv3, heff3, hst3⟩ :=
          request_inv_ok cfg env (login cfg env (getControllerId cfg env st).2.1).2.1 "GET"
            (sitesUrl cfg (login cfg env (getControllerId cfg env st).2.1).2.1) none
            eff3 st3 r3 hreq3
        refine ⟨eff1, eff2, eff3, r1, r2, r3, ?_, ?_, ?_, ?_, ?_, ?_, ⟨elem, hm3, ?_⟩, ?_⟩
        · have k1 : (getControllerId cfg env st).1 = [eff1] := by rw [hstep1]
          have k2 : (login cfg env (getControllerId cfg env st).2.1).1 = [eff2] := by
            rw [hstep2]
          have k3 : (getSiteId cfg env
              (login cfg env (getControllerId cfg env st).2.1).2.1).1 = [eff3] := by
            rw [hstep3]
          rw [hconn]
          dsimp only
          rw [k1, k2, k3]
          rfl
        · rw [heff1]
          exact henv1
        · rw [heff2]
          exact henv2
        · rw [heff3]
          exact henv3
        · rw [hconn]
          dsimp only
          rw [getSiteId_controllerId, login_controllerId, hstep1]
        · rw [hconn]
          dsimp only
          rw [getSiteId_token, hstep2, hm2]
        · rw [hconn]
          dsimp only
          rw [hstep3]
        · rw [hconn]
          dsimp only
          rw [hstep3]
          dsimp only
          rw [hst3, hstep2]
          dsimp only
          rw [hst2, hstep1]
          dsimp only
          rw [hst1]
      · rw [hstep3] at h3
        simp at h3
      · rw [hstep3] at h3
        simp at h3
    · rw [hstep2] at h2
      simp at h2
    · rw [hstep2] at h2
      simp at h2
  · rw [hstep1] at h1
    simp at h1

/-- C3 witness: both consecutive `connect` calls of the sticky-cookie
scenario succeed, so the replacement characterization applies to the
second one; in particular it dispatched exactly three requests. -/
theorem spec_c3_witness :
    ((connect cfg0 envSticky (connect cfg0 envSticky initialState).2.1).1).length = 3 := by
  obtain ⟨e1, e2, e3, r1, r2, r3, htr, -⟩ :=
    spec_c3_replace_and_merge cfg0 envSticky (connect cfg0 envSticky initialState).2.1 rfl
  rw [htr]
  rfl

theorem mergeCookie_preserves (store : List String) (c : String)
    (hstore : ∀ e ∈ store, wfCookie e) (hnodup : (store.map cookieNameOf).Nodup)
    (hc : wfCookie (cookiePart c)) :
    (∀ e ∈ mergeCookie store c, wfCookie e) ∧
      ((mergeCookie store c).map cookieNameOf).Nodup := by
  constructor
  · intro e he
    unfold mergeCookie at he
    rw [List.mem_append] at he
    rcases he with he | he
    · exact hstore e (List.mem_of_mem_filter he)
    · rw [List.mem_singleton] at he
      subst he
      exact hc
  · unfold mergeCookie
    rw [List.map_append, List.map_singleton, List.nodup_append]
    refine ⟨?_, List.nodup_singleton _, ?_⟩
    · exact List.Nodup.sublist (List.Sublist.map _ (List.filter_sublist _)) hnodup
    · intro a ha hb
      rw [List.mem_singleton] at hb
      subst hb
      rw [List.mem_map] at ha
      obtain ⟨e, hef, hename⟩ := ha
      rw [List.mem_filter] at hef
      obtain ⟨hes, hkeep⟩ := hef
      have hwf := hstore e hes
      unfold wfCookie at hwf
      rw [hename] at hwf
      rw [hwf] at hkeep
      simp at hkeep

/-- C10 counterexample: the removal filter matches only entries of the
form `name=...`, so a `set-cookie` directive without `=` does not
displace a previously stored same-named entry.  Starting from the empty
store, processing the directives `A` and then `A=1` yields a store with
two entries both named `A`, refuting the at-most-one-entry-per-name
invariant as stated. -/
theorem spec_c10_cex :
    mergeCookies [] ["A", "A=1"] = ["A", "A=1"] ∧
      cookieNameOf "A" = cookieNameOf "A=1" ∧
      ¬ ((mergeCookies [] ["A", "A=1"]).map cookieNameOf).Nodup := by
  refine ⟨by decide, by decide, ?_⟩
  rw [show (mergeCookies [] ["A", "A=1"]).map cookieNameOf = ["A", "A"] from by decide]
  decide

/-- C10 (amended): the at-most-one-entry-per-name invariant holds
provided every stored entry and every incoming cookie part is well-formed
(starts with its own name followed by `=`, as every real `name=value`
cookie does): under that proviso each merge removes the previously stored
entry of the incoming name before appending, well-formedness is
preserved, and the name list of the store stays duplicate-free across
every response processed. -/
theorem spec_c10_nodup_invariant (store scs : List String)
    (hstore : ∀ e ∈ store, wfCookie e) (hnodup : (store.map cookieNameOf).Nodup)
    (hscs : ∀ c ∈ scs, wfCookie (cookiePart c)) :
    (∀ e ∈ mergeCookies store scs, wfCookie e) ∧
      ((mergeCookies store scs).map cookieNameOf).Nodup := by
  induction scs generalizing store with
  | nil => exact ⟨hstore, hnodup⟩
  | cons c cs ih =>
    have hc := hscs c (List.mem_cons_self c cs)
    obtain ⟨hwf', hnd'⟩ := mergeCookie_preserves store c hstore hnodup hc
    exact ih (mergeCookie store c) hwf' hnd'
      (fun x hx => hscs x (List.mem_cons_of_mem c hx))

/-- C10 witness: merging the well-formed directives `A=2; Path=/` and
`B=3` into the store `["A=1"]` keeps the per-name uniqueness of the
store. -/
theorem spec_c10_witness :
    ((mergeCookies ["A=1"] ["A=2; Path=/", "B=3"]).map cookieNameOf).Nodup ∧
      wfCookie "A=1" :=
  ⟨(spec_c10_nodup_invariant ["A=1"] ["A=2; Path=/", "B=3"] (by decide) (by decide)
      (by decide)).2,
    by decide⟩
